import Mathlib

/-!
Verification of the CLUE baselines data-preparation pipeline
(src/baselines/models/classifier_utils.py and
src/baselines/models/xlnet/run_classifier.py).

We give a shallow embedding of the data model (examples, padding
sentinels, features), the batch aligner, the feature encoder, the
TFRecord writer/reader contract, the dataset adapters and the two
TSV readers, and prove or refute the frozen claims about them.
-/

set_option maxHeartbeats 1000000

namespace CLUE

/-- `InputExample` from classifier_utils.py lines 51-68 (identical class in
run_classifier.py lines 152-169): guid, text_a, optional text_b, optional
label (None for withheld test labels). -/
structure InputExample where
  guid : String
  text_a : String
  text_b : Option String
  label : Option String
deriving DecidableEq

/-- An entry of the eval/predict example list: either a real `InputExample`
or the `PaddingInputExample` sentinel (classifier_utils.py lines 71-79),
modelled as a tagged variant because the sentinel class carries no data. -/
inductive EvalExample where
  | real (e : InputExample)
  | padding
deriving DecidableEq

/-- The feature record produced by the encoder: token ids, attention mask,
segment ids, label id and the real-example flag.  Mask values are the
integers 0/1 (the float writer converts them exactly). -/
structure InputFeatures where
  input_ids : List Int
  input_mask : List Int
  segment_ids : List Int
  label_id : Int
  is_real_example : Bool
deriving DecidableEq

/-- The batch aligner: run_classifier.py lines 1277-1278,
`while len(eval_examples) % FLAGS.eval_batch_size != 0:
eval_examples.append(PaddingInputExample())`.  The Python loop diverges
for batch size 0; we guard on `batchSize ≠ 0` so the Lean function is
total, which does not affect any claim (all claims assume `b > 0`). -/
def alignToBatch (examples : List EvalExample) (batchSize : Nat) :
    List EvalExample :=
  if h : batchSize ≠ 0 ∧ examples.length % batchSize ≠ 0 then
    alignToBatch (examples ++ [EvalExample.padding]) batchSize
  else
    examples
termination_by (batchSize - examples.length % batchSize) % batchSize
decreasing_by
  obtain ⟨hb, hr⟩ := h
  have hb0 : 0 < batchSize := Nat.pos_of_ne_zero hb
  have h1 : examples.length % batchSize < batchSize :=
    Nat.mod_lt _ hb0
  have h2 : (examples ++ [EvalExample.padding]).length
      = examples.length + 1 := by simp
  rw [h2]
  have hb1 : batchSize ≠ 1 := by
    intro h
    exact hr (by simp [h, Nat.mod_one])
  have hone : 1 % batchSize = 1 :=
    Nat.one_mod_eq_one.mpr hb1
  have h3 : (examples.length + 1) % batchSize
      = (examples.length % batchSize + 1) % batchSize := by
    rw [Nat.add_mod, hone]
  rw [h3]
  rcases Nat.lt_or_ge (examples.length % batchSize + 1) batchSize with hlt | hge
  · rw [Nat.mod_eq_of_lt hlt]
    have ha : batchSize - (examples.length % batchSize + 1) < batchSize :=
      by omega
    have hc : batchSize - examples.length % batchSize < batchSize := by omega
    rw [Nat.mod_eq_of_lt ha, Nat.mod_eq_of_lt hc]
    omega
  · have heq : examples.length % batchSize + 1 = batchSize := by omega
    rw [heq, Nat.mod_self]

    have hc : batchSize - examples.length % batchSize < batchSize := by omega
    simp [Nat.mod_eq_of_lt hc]
    omega

/-- Modelled from the spec: `_truncate_seq_pair`, the paired-sequence
truncation loop called by `convert_single_example`.  Both functions are
imported by run_classifier.py from classifier_utils but are absent from
src/ (only their callers are present).  Spec §4.2 step 4: iteratively
remove one token from the longer of the two sequences until
`len(a) + len(b) <= maxLength`, truncating `text_b` on a length tie. -/
def truncate_seq_pair (tokensA tokensB : List Int) (maxLength : Nat) :
    List Int × List Int :=
  if tokensA.length + tokensB.length ≤ maxLength then
    (tokensA, tokensB)
  else if tokensB.length < tokensA.length then
    truncate_seq_pair tokensA.dropLast tokensB maxLength
  else
    truncate_seq_pair tokensA tokensB.dropLast maxLength
termination_by tokensA.length + tokensB.length
decreasing_by
  · simp only [List.length_dropLast]
    omega
  · simp only [List.length_dropLast]
    omega

/-- Modelled from the spec: `convert_single_example`, the feature encoder
imported by run_classifier.py from classifier_utils but absent from src/.
Spec §4.2: a `PaddingExample` short-circuits to an all-zero Feature with
`label_id = 0` and `is_real_example = false` before any tokenization; a
real example is tokenized, truncated (3 reserved marker slots when paired,
2 when single), assembled with start/separator markers, right-padded with
id 0 up to `maxSeqLength`, with mask 1 on real positions and 0 on pads,
segment id 0 for the text_a span and 1 for the text_b span, and label
mapped through the label vocabulary (a missing test label maps to the
first label, id 0; a label absent from the vocabulary is a failure). -/
def convert_single_example (ex : EvalExample) (labelList : List String)
    (maxSeqLength : Nat) (tokenizeFn : String → List Int)
    (startId sepId : Int) : Option InputFeatures :=
  match ex with
  | EvalExample.padding =>
      some { input_ids := List.replicate maxSeqLength 0,
             input_mask := List.replicate maxSeqLength 0,
             segment_ids := List.replicate maxSeqLength 0,
             label_id := 0,
             is_real_example := false }
  | EvalExample.real e =>
      let labelId? : Option Int :=
        match e.label with
        | none => some 0
        | some s => (labelList.indexOf? s).map Int.ofNat
      match labelId? with
      | none => none
      | some labelId =>
          let tokensA0 := tokenizeFn e.text_a
          let (ids, segs) :=
            match e.text_b with
            | some tb =>
                let tokensB0 := tokenizeFn tb
                let p := truncate_seq_pair tokensA0 tokensB0 (maxSeqLength - 3)
                ([startId] ++ p.1 ++ [sepId] ++ p.2 ++ [sepId],
                 List.replicate (p.1.length + 2) (0 : Int)
                   ++ List.replicate (p.2.length + 1) (1 : Int))
            | none =>
                let ta := tokensA0.take (maxSeqLength - 2)
                ([startId] ++ ta ++ [sepId],
                 List.replicate (ta.length + 2) (0 : Int))
          some { input_ids := ids ++ List.replicate (maxSeqLength - ids.length) 0,
                 input_mask := List.replicate ids.length 1
                   ++ List.replicate (maxSeqLength - ids.length) 0,
                 segment_ids := segs ++ List.replicate (maxSeqLength - segs.length) 0,
                 label_id := labelId,
                 is_real_example := true }

/-- The two tf.train.Feature payload kinds used by the writers:
`Int64List` and `FloatList` (run_classifier.py lines 947-953 and 272-274).
The float payload carries its values as integers because every float the
writers produce is the exact conversion of an integer 0/1 mask value or
label, so no rounding is involved. -/
inductive TFValue where
  | intList (l : List Int)
  | floatList (l : List Int)
deriving DecidableEq

/-- The two tensor element types the reader schema can declare
(run_classifier.py lines 975-983): tf.int64 and tf.float32. -/
inductive TFType where
  | i64
  | f32
deriving DecidableEq

/-- A serialized tf.train.Example: an ordered list of named features. -/
def TFRecord : Type := List (String × TFValue)

instance : DecidableEq TFRecord := by
  unfold TFRecord
  infer_instance

/-- The payload kind of a stored feature value. -/
def tfTypeOf : TFValue → TFType
  | TFValue.intList _ => TFType.i64
  | TFValue.floatList _ => TFType.f32

/-- The number of stored values in a feature payload. -/
def tfLen : TFValue → Nat
  | TFValue.intList l => l.length
  | TFValue.floatList l => l.length

/-- One entry of the reader schema: `tf.FixedLenFeature(shape, ty)` with
shape `[L]` (`some L`) or scalar `[]` (`none`, one value). -/
structure FixedLenFeature where
  shape : Option Nat
  ty : TFType
deriving DecidableEq

/-- The serialization of one feature by
`file_based_convert_examples_to_features` (run_classifier.py lines
947-964): int64 input_ids, FLOAT input_mask, int64 segment_ids, label_ids
int64 for classification (`labelListPresent`) or float for regression,
int64 is_real_example. -/
def serializeFeature (labelListPresent : Bool) (f : InputFeatures) :
    TFRecord :=
  [("input_ids", TFValue.intList f.input_ids),
   ("input_mask", TFValue.floatList f.input_mask),
   ("segment_ids", TFValue.intList f.segment_ids),
   ("label_ids",
     if labelListPresent then TFValue.intList [f.label_id]
     else TFValue.floatList [f.label_id]),
   ("is_real_example", TFValue.intList [if f.is_real_example then 1 else 0])]

/-- The serialization of one feature by
`file_based_convert_examples_to_features_for_inews` (run_classifier.py
lines 272-283): every field, including input_mask, is an int64 list. -/
def serializeFeatureInews (f : InputFeatures) : TFRecord :=
  [("input_ids", TFValue.intList f.input_ids),
   ("input_mask", TFValue.intList f.input_mask),
   ("segment_ids", TFValue.intList f.segment_ids),
   ("label_ids", TFValue.intList [f.label_id]),
   ("is_real_example", TFValue.intList [if f.is_real_example then 1 else 0])]

/-- The reader schema `name_to_features` declared by
`file_based_input_fn_builder` (run_classifier.py lines 975-983):
input_ids int64[L], input_mask FLOAT32[L], segment_ids int64[L],
label_ids scalar int64 (float32 when `isRegression`), is_real_example
scalar int64. -/
def nameToFeatures (seqLength : Nat) (isRegression : Bool) :
    List (String × FixedLenFeature) :=
  [("input_ids", { shape := some seqLength, ty := TFType.i64 }),
   ("input_mask", { shape := some seqLength, ty := TFType.f32 }),
   ("segment_ids", { shape := some seqLength, ty := TFType.i64 }),
   ("label_ids",
     { shape := none,
       ty := if isRegression then TFType.f32 else TFType.i64 }),
   ("is_real_example", { shape := none, ty := TFType.i64 })]

/-- Look up a named feature in a serialized record. -/
def lookupFeature (rec : TFRecord) (name : String) : Option TFValue :=
  (rec.find? (fun p => p.1 = name)).map (fun p => p.2)

/-- `tf.parse_single_example` (run_classifier.py line 989): each schema
entry must be present in the record with the declared element type and
the declared number of values, otherwise parsing fails. -/
def parseSingleExample (rec : TFRecord)
    (schema : List (String × FixedLenFeature)) :
    Option (List (String × TFValue)) :=
  schema.mapM (fun entry =>
    match lookupFeature rec entry.1 with
    | none => none
    | some v =>
        if tfTypeOf v = entry.2.ty ∧ tfLen v = entry.2.shape.getD 1 then
          some (entry.1, v)
        else
          none)

/-- Wrap-around conversion of an int64 value to int32, as performed by
`tf.cast(t, tf.int32)` in `_decode_record` (run_classifier.py lines
993-997). -/
def toInt32 (x : Int) : Int := (x + 2 ^ 31) % 2 ^ 32 - 2 ^ 31

/-- The int64-to-int32 cast `_decode_record` applies to every int64
tensor after parsing; float tensors are untouched. -/
def castRecordValue : TFValue → TFValue
  | TFValue.intList l => TFValue.intList (l.map toInt32)
  | TFValue.floatList l => TFValue.floatList l

/-- `_decode_record` (run_classifier.py lines 987-999): parse one record
against the schema, then cast every int64 tensor to int32. -/
def decodeRecord (rec : TFRecord)
    (schema : List (String × FixedLenFeature)) :
    Option (List (String × TFValue)) :=
  (parseSingleExample rec schema).map
    (List.map (fun p => (p.1, castRecordValue p.2)))

/-- `examples *= num_passes` guarded by `num_passes > 1`
(run_classifier.py lines 934-935, likewise lines 261-262). -/
def expandPasses {α : Type} (examples : List α) (numPasses : Nat) :
    List α :=
  if 1 < numPasses then (List.replicate numPasses examples).flatten
  else examples

/-- The record sequence `file_based_convert_examples_to_features` writes:
one serialized record per example of the pass-expanded list, in order
(run_classifier.py lines 934-968).  The per-example encoding
(`convert_single_example` plus serialization) is abstracted as `enc`. -/
def fbConvertRecords {α : Type} (examples : List α) (numPasses : Nat)
    (enc : α → TFRecord) : List TFRecord :=
  (expandPasses examples numPasses).map enc

/-- A file system mapping container paths to record lists. -/
def RecordFS : Type := List (String × List TFRecord)

instance : DecidableEq RecordFS := by
  unfold RecordFS
  infer_instance

/-- `tf.gfile.Exists` / container lookup. -/
def fsLookup (fs : RecordFS) (path : String) : Option (List TFRecord) :=
  (fs.find? (fun p => p.1 = path)).map (fun p => p.2)

/-- Store a container at a path, replacing any existing one. -/
def fsSet (fs : RecordFS) (path : String) (records : List TFRecord) :
    RecordFS :=
  match fs with
  | [] => [(path, records)]
  | entry :: rest =>
      if entry.1 = path then (path, records) :: rest
      else entry :: fsSet rest path records

/-- `file_based_convert_examples_to_features` as a file-system
transformer (run_classifier.py lines 919-968): if the container exists
and `overwriteData` (FLAGS.overwrite_data) is false, return without
writing; otherwise write one record per pass-expanded example. -/
def file_based_convert_examples_to_features {α : Type} (fs : RecordFS)
    (outputFile : String) (examples : List α) (numPasses : Nat)
    (overwriteData : Bool) (enc : α → TFRecord) : RecordFS :=
  if (fsLookup fs outputFile).isSome ∧ overwriteData = false then fs
  else fsSet fs outputFile (fbConvertRecords examples numPasses enc)

/-- `file_based_convert_examples_to_features_for_inews` as a file-system
transformer (run_classifier.py lines 255-288): it opens the writer
unconditionally — there is no existence check and no overwrite flag —
and each example may contribute several records (`feature_list`),
abstracted as `enc` returning a record list. -/
def file_based_convert_examples_to_features_for_inews {α : Type}
    (fs : RecordFS) (outputFile : String) (examples : List α)
    (numPasses : Nat) (enc : α → List TFRecord) : RecordFS :=
  fsSet fs outputFile ((expandPasses examples numPasses).map enc).flatten

/-- A parsed JSON-lines object, restricted to the string fields the
adapters read: an ordered list of key/value pairs. -/
def JsonLine : Type := List (String × String)

instance : DecidableEq JsonLine := by
  unfold JsonLine
  infer_instance

/-- `line['key']` on a parsed JSON object: `some` value when the key is
present, `none` when the access would raise KeyError. -/
def jget (line : JsonLine) (key : String) : Option String :=
  (line.find? (fun p => p.1 = key)).map (fun p => p.2)

/-- `XnliProcessor._create_examples` (classifier_utils.py lines 150-160):
text_a from 'premise', text_b from 'hypo'; label from 'label' except on
the test split, where the literal placeholder 'contradiction' is used
without reading the 'label' field.  `none` models an uncaught KeyError. -/
def xnliCreateExamplesFrom (setType : String) :
    Nat → List JsonLine → Option (List InputExample)
  | _, [] => some []
  | i, line :: rest =>
      match jget line "premise", jget line "hypo" with
      | some ta, some tb =>
          match
            (if setType = "test" then some (some "contradiction")
             else (jget line "label").map (fun s => some s)) with
          | some label =>
              match xnliCreateExamplesFrom setType (i + 1) rest with
              | some es =>
                  some ({ guid := setType ++ "-" ++ toString i,
                          text_a := ta, text_b := some tb,
                          label := label } :: es)
              | none => none
          | none => none
      | _, _ => none

/-- `XnliProcessor._create_examples` applied from index 0. -/
def xnliCreateExamples (lines : List JsonLine) (setType : String) :
    Option (List InputExample) :=
  xnliCreateExamplesFrom setType 0 lines

/-- `TnewsProcessor._create_examples` (classifier_utils.py lines 236-246;
the xlnet copy at run_classifier.py lines 357-369 builds the same
examples from the same parsed lines): text_a from 'sentence', no text_b;
label from 'label' except on the test split, where it is None and the
'label' field is never read. -/
def tnewsCreateExamplesFrom (setType : String) :
    Nat → List JsonLine → Option (List InputExample)
  | _, [] => some []
  | i, line :: rest =>
      match jget line "sentence" with
      | some ta =>
          match
            (if setType = "test" then some (none : Option String)
             else (jget line "label").map (fun s => some s)) with
          | some label =>
              match tnewsCreateExamplesFrom setType (i + 1) rest with
              | some es =>
                  some ({ guid := setType ++ "-" ++ toString i,
                          text_a := ta, text_b := none,
                          label := label } :: es)
              | none => none
          | none => none
      | none => none

/-- `TnewsProcessor._create_examples` applied from index 0. -/
def tnewsCreateExamples (lines : List JsonLine) (setType : String) :
    Option (List InputExample) :=
  tnewsCreateExamplesFrom setType 0 lines

/-- `XnliProcessor.get_test_examples` in run_classifier.py lines 802-813:
reads 'premise' and 'hypo' and constructs the InputExample without a
label argument, so the label defaults to None. -/
def xnliXlnetTestExamplesFrom :
    Nat → List JsonLine → Option (List InputExample)
  | _, [] => some []
  | i, line :: rest =>
      match jget line "premise", jget line "hypo" with
      | some ta, some tb =>
          match xnliXlnetTestExamplesFrom (i + 1) rest with
          | some es =>
              some ({ guid := "test-" ++ toString i,
                      text_a := ta, text_b := some tb,
                      label := none } :: es)
          | none => none
      | _, _ => none

/-- `XnliProcessor.get_test_examples` applied from index 0. -/
def xnliXlnetTestExamples (lines : List JsonLine) :
    Option (List InputExample) :=
  xnliXlnetTestExamplesFrom 0 lines

/-- `THUCNewsProcessor._create_examples` (run_classifier.py lines
397-409): skip the header row (i = 0) and rows with fewer than 3 fields,
then read `line[3]` as text_a and `line[0]` as the label.  `Except.error
i` models the uncaught IndexError raised at row `i` when the row is too
short for the access — which happens for rows of length exactly 3, since
the guard only requires `len(line) >= 3` but `line[3]` needs length 4. -/
def thucnewsCreateExamplesFrom (setType : String) :
    Nat → List (List String) → Except Nat (List InputExample)
  | _, [] => Except.ok []
  | i, line :: rest =>
      if i = 0 ∨ line.length < 3 then
        thucnewsCreateExamplesFrom setType (i + 1) rest
      else
        match line.get? 3, line.get? 0 with
        | some ta, some lab =>
            match thucnewsCreateExamplesFrom setType (i + 1) rest with
            | Except.ok es =>
                Except.ok ({ guid := setType ++ "-" ++ toString i,
                             text_a := ta, text_b := none,
                             label := some lab } :: es)
            | Except.error j => Except.error j
        | _, _ => Except.error i

/-- `THUCNewsProcessor._create_examples` applied from index 0. -/
def thucnewsCreateExamples (lines : List (List String))
    (setType : String) : Except Nat (List InputExample) :=
  thucnewsCreateExamplesFrom setType 0 lines

/-- `GLUEProcessor._create_examples` (run_classifier.py lines 619-657)
restricted to a non-test split with the header flag set, text column
`aCol`, optional second text column `bCol?` and label column `labCol`:
rows too short for any needed column are skipped (warned-and-ignored),
never indexed past their length. -/
def glueCreateExamplesFrom (aCol : Nat) (bCol? : Option Nat)
    (labCol : Nat) (setType : String) :
    Nat → List (List String) → List InputExample
  | _, [] => []
  | i, line :: rest =>
      let rest' := glueCreateExamplesFrom aCol bCol? labCol setType
        (i + 1) rest
      if i = 0 then rest'
      else if line.length ≤ aCol then rest'
      else
        match line.get? aCol with
        | none => rest'
        | some ta =>
            let tb? : Option (Option String) :=
              match bCol? with
              | none => some none
              | some bCol =>
                  if line.length ≤ bCol then none
                  else (line.get? bCol).map (fun s => some s)
            match tb? with
            | none => rest'
            | some tb =>
                if line.length ≤ labCol then rest'
                else
                  match line.get? labCol with
                  | none => rest'
                  | some lab =>
                      { guid := setType ++ "-" ++ toString i,
                        text_a := ta, text_b := tb,
                        label := some lab } :: rest'

/-- `GLUEProcessor._create_examples` applied from row index 0. -/
def glueCreateExamples (lines : List (List String)) (aCol : Nat)
    (bCol? : Option Nat) (labCol : Nat) (setType : String) :
    List InputExample :=
  glueCreateExamplesFrom aCol bCol? labCol setType 0 lines

/-- `TnewsProcessor.get_labels` (classifier_utils.py lines 227-234;
identical code at run_classifier.py lines 348-355): append
`str(100 + i)` for i in range(17), skipping i = 5 and i = 11.  Being a
pure constant, it returns the same list on every call. -/
def tnewsGetLabels : List String :=
  (List.range 17).foldl
    (fun labels i =>
      if i = 5 ∨ i = 11 then labels else labels ++ [toString (100 + i)])
    []

/-- `DataProcessor._read_tsv` from classifier_utils.py lines 101-109
with the default delimiter, modelled over the list of rows produced by
`csv.reader` (identical in both files: tab delimiter, no quotechar):
it appends every row. -/
def read_tsv_cu (rows : List (List String)) : List (List String) :=
  rows.foldl (fun lines line => lines ++ [line]) []

/-- `DataProcessor._read_tsv` from run_classifier.py lines 191-201 over
the same `csv.reader` rows: it skips rows with `len(line) == 0` (blank
input lines) and appends the rest. -/
def read_tsv_rc (rows : List (List String)) : List (List String) :=
  rows.foldl
    (fun lines line => if line.length = 0 then lines else lines ++ [line])
    []

/-- A concrete real example for witness evaluations. -/
def sampleExample : InputExample :=
  { guid := "dev-0", text_a := "a", text_b := none, label := some "0" }

/-- A concrete feature with arrays of length 2 for witness evaluations. -/
def sampleFeature : InputFeatures :=
  { input_ids := [3, 4], input_mask := [1, 0], segment_ids := [0, 0],
    label_id := 1, is_real_example := true }

/-- A concrete serialized record for counterexample evaluations. -/
def sampleRecord : TFRecord := [("input_ids", TFValue.intList [7])]

/-- A concrete inews per-example encoding (one fixed record per example)
for counterexample evaluations. -/
def sampleEncInews : EvalExample → List TFRecord := fun _ => [sampleRecord]

theorem padCount_succ (len b : Nat) (hb : 0 < b) (hr : len % b ≠ 0) :
    (b - len % b) % b = (b - (len + 1) % b) % b + 1 := by
  have hrb : len % b < b := Nat.mod_lt _ hb
  have hb1 : b ≠ 1 := by
    intro h
    exact hr (by simp [h, Nat.mod_one])
  have hone : 1 % b = 1 := Nat.one_mod_eq_one.mpr hb1
  have h3 : (len + 1) % b = (len % b + 1) % b := by
    rw [Nat.add_mod, hone]
  rw [h3]
  rcases Nat.lt_or_ge (len % b + 1) b with hlt | hge
  · rw [Nat.mod_eq_of_lt hlt,
      Nat.mod_eq_of_lt (show b - (len % b + 1) < b by omega),
      Nat.mod_eq_of_lt (show b - len % b < b by omega)]
    omega
  · have heq : len % b + 1 = b := by omega
    rw [heq, Nat.mod_self, Nat.sub_zero, Nat.mod_self,
      Nat.mod_eq_of_lt (show b - len % b < b by omega)]
    omega

theorem alignToBatch_eq (examples : List EvalExample) (batchSize : Nat)
    (hb : 0 < batchSize) :
    alignToBatch examples batchSize =
      examples ++
        List.replicate
          ((batchSize - examples.length % batchSize) % batchSize)
          EvalExample.padding := by
  induction examples, batchSize using alignToBatch.induct with
  | case1 examples batchSize h ih =>
      obtain ⟨hb', hr⟩ := h
      rw [alignToBatch, dif_pos ⟨hb', hr⟩, ih hb]
      rw [List.append_assoc]
      congr 1
      have hcount := padCount_succ examples.length batchSize hb hr
      simp only [List.length_append, List.length_cons, List.length_nil]
      rw [show examples.length + 1 = examples.length + 1 from rfl, hcount]
      rw [List.replicate_succ]
      rfl
  | case2 examples batchSize h =>
      rw [alignToBatch, dif_neg h]
      rcases Decidable.em (batchSize = 0) with h0 | h0
      · omega
      · have hr : examples.length % batchSize = 0 := by
          by_contra hc
          exact h ⟨h0, hc⟩
        rw [hr, Nat.sub_zero, Nat.mod_self]
        simp

/-- C1: for every example list `E` and batch size `b > 0`, the batch
aligner returns a list whose length is a multiple of `b`, whose first
`len(E)` elements are exactly `E`, and whose remaining (fewer than `b`)
elements are all `PaddingExample` sentinels appended at the end. -/
theorem alignToBatch_claim (E : List EvalExample) (b : Nat) (hb : 0 < b) :
    (alignToBatch E b).length % b = 0 ∧
    (alignToBatch E b).take E.length = E ∧
    (alignToBatch E b).drop E.length =
      List.replicate ((alignToBatch E b).length - E.length)
        EvalExample.padding ∧
    (alignToBatch E b).length - E.length < b := by
  have heq := alignToBatch_eq E b hb
  set k := (b - E.length % b) % b with hk
  have hlen : (alignToBatch E b).length = E.length + k := by
    rw [heq]
    simp
  have hkb : k < b := Nat.mod_lt _ hb
  refine ⟨?_, ?_, ?_, ?_⟩
  · rw [hlen]
    rcases Decidable.em (E.length % b = 0) with h0 | h0
    · have : k = 0 := by
        rw [hk, h0, Nat.sub_zero, Nat.mod_self]
      rw [this, Nat.add_zero, h0]
    · have hrb : E.length % b < b := Nat.mod_lt _ hb
      have hkv : k = b - E.length % b := by
        rw [hk, Nat.mod_eq_of_lt (by omega)]
      rw [Nat.add_mod, hkv, Nat.mod_eq_of_lt (by omega : b - E.length % b < b)]
      have : E.length % b + (b - E.length % b) = b := by omega
      rw [this, Nat.mod_self]
  · rw [heq, List.take_left]
  · rw [heq, List.drop_left]
    congr 1
    simp
  · omega

/-- Witness for C1 at `E = [real sampleExample]`, `b = 2`. -/
theorem alignToBatch_claim_witness :
    0 < 2 ∧
      ((alignToBatch [EvalExample.real sampleExample] 2).length % 2 = 0 ∧
       (alignToBatch [EvalExample.real sampleExample] 2).take 1 =
         [EvalExample.real sampleExample] ∧
       (alignToBatch [EvalExample.real sampleExample] 2).drop 1 =
         List.replicate
           ((alignToBatch [EvalExample.real sampleExample] 2).length - 1)
           EvalExample.padding ∧
       (alignToBatch [EvalExample.real sampleExample] 2).length - 1 < 2) :=
  ⟨by decide, alignToBatch_claim [EvalExample.real sampleExample] 2 (by decide)⟩

theorem truncate_seq_pair_le (a b : List Int) (m : Nat) :
    (truncate_seq_pair a b m).1.length +
      (truncate_seq_pair a b m).2.length ≤ m := by
  induction a, b, m using truncate_seq_pair.induct with
  | case1 a b m h =>
      rw [truncate_seq_pair, if_pos h]
      exact h
  | case2 a b m h hlt ih =>
      rw [truncate_seq_pair, if_neg h, if_pos hlt]
      exact ih
  | case3 a b m h hlt ih =>
      rw [truncate_seq_pair, if_neg h, if_neg hlt]
      exact ih

theorem truncate_seq_pair_only_a (a b : List Int) (m : Nat)
    (hbm : b.length ≤ m - b.length) (ham : m - b.length ≤ a.length)
    (hm : b.length ≤ m) :
    truncate_seq_pair a b m = (a.take (m - b.length), b) := by
  obtain ⟨n, hn⟩ : ∃ n, a.length = n := ⟨a.length, rfl⟩
  induction n using Nat.strong_induction_on generalizing a with
  | _ n ih =>
      subst hn
      rcases le_or_lt (a.length + b.length) m with hle | hgt
      · rw [truncate_seq_pair, if_pos hle]
        have : a.length = m - b.length := by omega
        rw [← this, List.take_length]
      · have hba : b.length < a.length := by omega
        rw [truncate_seq_pair, if_neg (by omega), if_pos hba]
        have hlen : a.dropLast.length < a.length := by
          rw [List.length_dropLast]
          omega
        have hrec := ih a.dropLast.length hlen a.dropLast
          (by rw [List.length_dropLast]; omega) rfl
        rw [hrec]
        rw [List.dropLast_eq_take, List.take_take]
        congr 1
        congr 1
        omega

/-- C3: the paired-sequence truncation loop removes one token at a time
from the longer sequence (from `text_b` on a tie) until the total fits
the budget — so the final total is always at most the budget — and on
`text_a` of length 100, `text_b` of length 5, `reserved_slots = 3`,
`max_seq_length = 20` it yields lengths 12 and 5, leaving `text_b`
untouched. -/
theorem truncate_seq_pair_claim :
    (∀ (a b : List Int) (m : Nat),
      (truncate_seq_pair a b m).1.length +
        (truncate_seq_pair a b m).2.length ≤ m) ∧
    truncate_seq_pair (List.replicate 100 0) (List.replicate 5 0) (20 - 3) =
      (List.replicate 12 0, List.replicate 5 0) := by
  refine ⟨truncate_seq_pair_le, ?_⟩
  rw [truncate_seq_pair_only_a (List.replicate 100 0) (List.replicate 5 0)
    (20 - 3) (by simp) (by simp) (by simp)]
  rw [List.take_replicate]
  simp

/-- C4: the feature encoder maps a `PaddingExample` to a Feature whose
token, mask and segment arrays are all zero, whose label id is 0 and
whose real-example flag is false, and its result on a padding entry is
the same for every tokenizer — it never invokes the tokenizer on the
padding entry. -/
theorem convert_single_example_padding_claim (labelList : List String)
    (maxSeqLength : Nat) (tok tok2 : String → List Int)
    (startId sepId : Int) :
    convert_single_example EvalExample.padding labelList maxSeqLength tok
        startId sepId =
      some { input_ids := List.replicate maxSeqLength 0,
             input_mask := List.replicate maxSeqLength 0,
             segment_ids := List.replicate maxSeqLength 0,
             label_id := 0,
             is_real_example := false } ∧
    convert_single_example EvalExample.padding labelList maxSeqLength tok
        startId sepId =
      convert_single_example EvalExample.padding labelList maxSeqLength tok2
        startId sepId :=
  ⟨rfl, rfl⟩

theorem toInt32_eq_self (x : Int) (h1 : -(2 ^ 31) ≤ x) (h2 : x < 2 ^ 31) :
    toInt32 x = x := by
  unfold toInt32
  rw [Int.emod_eq_of_lt (by omega) (by omega)]
  omega

theorem map_toInt32_self (l : List Int)
    (h : ∀ x ∈ l, -(2 ^ 31) ≤ x ∧ x < 2 ^ 31) : l.map toInt32 = l := by
  induction l with
  | nil => rfl
  | cons x xs ih =>
      have hx := h x (by simp)
      rw [List.map_cons, toInt32_eq_self x hx.1 hx.2,
        ih (fun y hy => h y (by simp [hy]))]

theorem decodeRecord_serializeFeature (f : InputFeatures) (L : Nat)
    (h1 : f.input_ids.length = L) (h2 : f.input_mask.length = L)
    (h3 : f.segment_ids.length = L)
    (hr1 : ∀ x ∈ f.input_ids, -(2 ^ 31) ≤ x ∧ x < 2 ^ 31)
    (hr3 : ∀ x ∈ f.segment_ids, -(2 ^ 31) ≤ x ∧ x < 2 ^ 31)
    (hrl : -(2 ^ 31) ≤ f.label_id ∧ f.label_id < 2 ^ 31) :
    decodeRecord (serializeFeature true f) (nameToFeatures L false) =
      some [("input_ids", TFValue.intList f.input_ids),
            ("input_mask", TFValue.floatList f.input_mask),
            ("segment_ids", TFValue.intList f.segment_ids),
            ("label_ids", TFValue.intList [f.label_id]),
            ("is_real_example",
              TFValue.intList [if f.is_real_example then 1 else 0])] := by
  simp only [decodeRecord, parseSingleExample, nameToFeatures,
    serializeFeature, lookupFeature, tfTypeOf, tfLen,
    List.mapM_cons, List.mapM_nil, List.find?]
  simp only [if_true, if_pos rfl]
  simp [tfTypeOf, tfLen, h1, h2, h3, castRecordValue,
    map_toInt32_self f.input_ids hr1, map_toInt32_self f.segment_ids hr3,
    toInt32_eq_self f.label_id hrl.1 hrl.2]
  rcases f.is_real_example with _ | _
  · simp [toInt32]
  · simp [toInt32]

/-- C2 (amended): round-trip holds for the FLOAT-mask writer variant:
writing a sequence of Features with
`file_based_convert_examples_to_features` serialization and decoding
each record with the reader's declared schema yields the identical
sequence of field values in the same order (values within int32 range,
arrays of the declared length).  The int-mask (inews) variant does not
round-trip against this schema — see the counterexample. -/
theorem roundtrip_float_claim (fs : List InputFeatures) (L : Nat)
    (hlen : ∀ f ∈ fs, f.input_ids.length = L ∧ f.input_mask.length = L ∧
      f.segment_ids.length = L)
    (hrange : ∀ f ∈ fs,
      (∀ x ∈ f.input_ids, -(2 ^ 31) ≤ x ∧ x < 2 ^ 31) ∧
      (∀ x ∈ f.segment_ids, -(2 ^ 31) ≤ x ∧ x < 2 ^ 31) ∧
      (-(2 ^ 31) ≤ f.label_id ∧ f.label_id < 2 ^ 31)) :
    (fs.map (serializeFeature true)).map
        (fun rec => decodeRecord rec (nameToFeatures L false)) =
      fs.map (fun f =>
        some [("input_ids", TFValue.intList f.input_ids),
              ("input_mask", TFValue.floatList f.input_mask),
              ("segment_ids", TFValue.intList f.segment_ids),
              ("label_ids", TFValue.intList [f.label_id]),
              ("is_real_example",
                TFValue.intList [if f.is_real_example then 1 else 0])]) := by
  rw [List.map_map]
  apply List.map_congr_left
  intro f hf
  obtain ⟨ha, hb, hc⟩ := hlen f hf
  obtain ⟨hx, hy, hz⟩ := hrange f hf
  exact decodeRecord_serializeFeature f L ha hb hc hx hy hz

/-- Witness for C2's amended round-trip at `fs = [sampleFeature]`,
`L = 2`. -/
theorem roundtrip_float_claim_witness :
    (∀ f ∈ [sampleFeature], f.input_ids.length = 2 ∧
      f.input_mask.length = 2 ∧ f.segment_ids.length = 2) ∧
    (∀ f ∈ [sampleFeature],
      (∀ x ∈ f.input_ids, -(2 ^ 31) ≤ x ∧ x < 2 ^ 31) ∧
      (∀ x ∈ f.segment_ids, -(2 ^ 31) ≤ x ∧ x < 2 ^ 31) ∧
      (-(2 ^ 31) ≤ f.label_id ∧ f.label_id < 2 ^ 31)) ∧
    ([sampleFeature].map (serializeFeature true)).map
        (fun rec => decodeRecord rec (nameToFeatures 2 false)) =
      [sampleFeature].map (fun f =>
        some [("input_ids", TFValue.intList f.input_ids),
              ("input_mask", TFValue.floatList f.input_mask),
              ("segment_ids", TFValue.intList f.segment_ids),
              ("label_ids", TFValue.intList [f.label_id]),
              ("is_real_example",
                TFValue.intList [if f.is_real_example then 1 else 0])]) :=
  ⟨by decide, by decide,
    roundtrip_float_claim [sampleFeature] 2 (by decide) (by decide)⟩

/-- C2 counterexample: a record produced by the int-mask (inews) writer
fails to decode under the reader's declared schema, because the stored
int64 `input_mask` does not match the declared float32 type — so the
claim that both writer variants round-trip against the single reader
schema is false. -/
theorem roundtrip_inews_counterexample :
    decodeRecord (serializeFeatureInews sampleFeature)
        (nameToFeatures 2 false) = none ∧
    decodeRecord (serializeFeature true sampleFeature)
        (nameToFeatures 2 false) ≠ none := by
  decide

theorem fsLookup_fsSet (fs : RecordFS) (path : String)
    (records : List TFRecord) :
    fsLookup (fsSet fs path records) path = some records := by
  induction fs with
  | nil => simp [fsSet, fsLookup, List.find?]
  | cons entry rest ih =>
      by_cases h : entry.1 = path
      · simp [fsSet, h, fsLookup, List.find?_cons_of_pos]
      · simp only [fsSet, if_neg h, fsLookup]
        rw [List.find?_cons_of_neg _ (by simpa using h)]
        simpa [fsLookup] using ih

theorem fb_write_exists_noop {α : Type} (fs : RecordFS) (path : String)
    (E : List α) (n : Nat) (enc : α → TFRecord)
    (h : (fsLookup fs path).isSome = true) :
    file_based_convert_examples_to_features fs path E n false enc = fs := by
  unfold file_based_convert_examples_to_features
  rw [if_pos ⟨h, rfl⟩]

theorem fb_write_fresh {α : Type} (fs : RecordFS) (path : String)
    (E : List α) (n : Nat) (enc : α → TFRecord)
    (h : ¬(fsLookup fs path).isSome = true) :
    file_based_convert_examples_to_features fs path E n false enc =
      fsSet fs path (fbConvertRecords E n enc) := by
  unfold file_based_convert_examples_to_features
  rw [if_neg (by simp [h])]

/-- C5 (amended): `file_based_convert_examples_to_features` is a no-op
when the container already exists and overwriting is off, so a second
call with `overwrite_data = false` — with any examples, pass count and
encoding — leaves the file system, and hence the container, identical
to the state after the first call.  The inews writer variant does NOT
share this behaviour — see the counterexample. -/
theorem fb_write_no_clobber_claim {α β : Type} (fs : RecordFS)
    (path : String) (E : List α) (E2 : List β) (n n2 : Nat)
    (enc : α → TFRecord) (enc2 : β → TFRecord) :
    file_based_convert_examples_to_features
        (file_based_convert_examples_to_features fs path E n false enc)
        path E2 n2 false enc2 =
      file_based_convert_examples_to_features fs path E n false enc := by
  by_cases h : (fsLookup fs path).isSome = true
  · rw [fb_write_exists_noop fs path E n enc h,
      fb_write_exists_noop fs path E2 n2 enc2 h]
  · rw [fb_write_fresh fs path E n enc h]
    apply fb_write_exists_noop
    rw [fsLookup_fsSet]
    rfl

/-- C5 counterexample: the inews writer entry point performs its write
unconditionally — a second call on an existing container replaces the
container's records, so the no-clobber behaviour does not hold for
every writer entry point. -/
theorem inews_write_clobbers_counterexample :
    file_based_convert_examples_to_features_for_inews
        (file_based_convert_examples_to_features_for_inews
          [] "out.tf_record" [EvalExample.padding] 1 sampleEncInews)
        "out.tf_record" ([] : List EvalExample) 1 sampleEncInews ≠
      file_based_convert_examples_to_features_for_inews
        [] "out.tf_record" [EvalExample.padding] 1 sampleEncInews := by
  decide

theorem length_flatten_replicate {α : Type} (n : Nat) (E : List α) :
    ((List.replicate n E).flatten).length = n * E.length := by
  induction n with
  | zero => simp
  | succ m ih =>
      rw [List.replicate_succ, List.flatten_cons, List.length_append, ih,
        Nat.succ_mul]
      omega

/-- C9: `file_based_convert_examples_to_features` converts the input
list concatenated with itself `n` times when `n > 1` and exactly the
input list when `n ≤ 1`, writing one record per converted example in
order, so a fresh container holds `n * len(examples)` records for
`n > 1`. -/
theorem fb_num_passes_claim {α : Type} (E : List α) (n : Nat)
    (enc : α → TFRecord) :
    fbConvertRecords E n enc =
      (if 1 < n then (List.replicate n E).flatten else E).map enc ∧
    (fbConvertRecords E n enc).length =
      (if 1 < n then n * E.length else E.length) ∧
    ∀ path,
      fsLookup
          (file_based_convert_examples_to_features [] path E n false enc)
          path =
        some (fbConvertRecords E n enc) := by
  refine ⟨?_, ?_, ?_⟩
  · rw [fbConvertRecords, expandPasses]
  · rw [fbConvertRecords, expandPasses]
    by_cases h : 1 < n
    · rw [if_pos h, if_pos h, List.length_map, length_flatten_replicate]
    · rw [if_neg h, if_neg h, List.length_map]
  · intro path
    rw [fb_write_fresh [] path E n enc (by simp [fsLookup, List.find?]),
      fsLookup_fsSet]

theorem tnews_test_labels_from (lines : List JsonLine)
    (h : ∀ l ∈ lines, (jget l "sentence").isSome) :
    ∀ i, ∃ es, tnewsCreateExamplesFrom "test" i lines = some es ∧
      ∀ e ∈ es, e.label = none := by
  induction lines with
  | nil => intro i; exact ⟨[], rfl, by simp⟩
  | cons l rest ih =>
      intro i
      obtain ⟨ta, hta⟩ := Option.isSome_iff_exists.mp (h l (by simp))
      obtain ⟨es, hes, hlab⟩ :=
        ih (fun x hx => h x (List.mem_cons_of_mem _ hx)) (i + 1)
      refine ⟨{ guid := "test" ++ "-" ++ toString i, text_a := ta,
                text_b := none, label := none } :: es, ?_, ?_⟩
      · simp only [tnewsCreateExamplesFrom, hta, hes]
        simp
      · intro e he
        rcases List.mem_cons.mp he with h1 | h1
        · rw [h1]
        · exact hlab e h1

theorem xnli_xlnet_test_labels_from (lines : List JsonLine)
    (h : ∀ l ∈ lines, (jget l "premise").isSome ∧ (jget l "hypo").isSome) :
    ∀ i, ∃ es, xnliXlnetTestExamplesFrom i lines = some es ∧
      ∀ e ∈ es, e.label = none := by
  induction lines with
  | nil => intro i; exact ⟨[], rfl, by simp⟩
  | cons l rest ih =>
      intro i
      obtain ⟨ta, hta⟩ := Option.isSome_iff_exists.mp (h l (by simp)).1
      obtain ⟨tb, htb⟩ := Option.isSome_iff_exists.mp (h l (by simp)).2
      obtain ⟨es, hes, hlab⟩ :=
        ih (fun x hx => h x (List.mem_cons_of_mem _ hx)) (i + 1)
      refine ⟨{ guid := "test-" ++ toString i, text_a := ta,
                text_b := some tb, label := none } :: es, ?_, ?_⟩
      · simp only [xnliXlnetTestExamplesFrom, hta, htb, hes]
      · intro e he
        rcases List.mem_cons.mp he with h1 | h1
        · rw [h1]
        · exact hlab e h1

theorem xnli_cu_test_labels_from (lines : List JsonLine)
    (h : ∀ l ∈ lines, (jget l "premise").isSome ∧ (jget l "hypo").isSome) :
    ∀ i, ∃ es, xnliCreateExamplesFrom "test" i lines = some es ∧
      ∀ e ∈ es, e.label = some "contradiction" := by
  induction lines with
  | nil => intro i; exact ⟨[], rfl, by simp⟩
  | cons l rest ih =>
      intro i
      obtain ⟨ta, hta⟩ := Option.isSome_iff_exists.mp (h l (by simp)).1
      obtain ⟨tb, htb⟩ := Option.isSome_iff_exists.mp (h l (by simp)).2
      obtain ⟨es, hes, hlab⟩ :=
        ih (fun x hx => h x (List.mem_cons_of_mem _ hx)) (i + 1)
      refine ⟨{ guid := "test" ++ "-" ++ toString i, text_a := ta,
                text_b := some tb, label := some "contradiction" } :: es,
        ?_, ?_⟩
      · simp only [xnliCreateExamplesFrom, hta, htb, hes]
        simp
      · intro e he
        rcases List.mem_cons.mp he with h1 | h1
        · rw [h1]
        · exact hlab e h1

/-- C6 (amended): on the test split, JSON-lines adapters never raise on
a missing label field; the Tnews adapter and the xlnet Xnli test-split
adapter produce examples whose label is None, while the
classifier_utils Xnli adapter substitutes the placeholder label
'contradiction' instead of None (it never reads the label field on the
test split). -/
theorem json_test_label_amended (lines : List JsonLine)
    (hs : ∀ l ∈ lines, (jget l "sentence").isSome)
    (hp : ∀ l ∈ lines, (jget l "premise").isSome ∧ (jget l "hypo").isSome) :
    (∃ es, tnewsCreateExamples lines "test" = some es ∧
      ∀ e ∈ es, e.label = none) ∧
    (∃ es, xnliXlnetTestExamples lines = some es ∧
      ∀ e ∈ es, e.label = none) ∧
    (∃ es, xnliCreateExamples lines "test" = some es ∧
      ∀ e ∈ es, e.label = some "contradiction") :=
  ⟨tnews_test_labels_from lines hs 0,
   xnli_xlnet_test_labels_from lines hp 0,
   xnli_cu_test_labels_from lines hp 0⟩

/-- Witness for C6's amended claim at a single JSON line carrying
premise, hypo and sentence fields and no label field. -/
theorem json_test_label_amended_witness :
    (∀ l ∈ ([[("premise", "p"), ("hypo", "h"), ("sentence", "s")]] :
        List JsonLine), (jget l "sentence").isSome) ∧
    (∀ l ∈ ([[("premise", "p"), ("hypo", "h"), ("sentence", "s")]] :
        List JsonLine),
      (jget l "premise").isSome ∧ (jget l "hypo").isSome) ∧
    ((∃ es, tnewsCreateExamples
        [[("premise", "p"), ("hypo", "h"), ("sentence", "s")]] "test" =
          some es ∧ ∀ e ∈ es, e.label = none) ∧
     (∃ es, xnliXlnetTestExamples
        [[("premise", "p"), ("hypo", "h"), ("sentence", "s")]] =
          some es ∧ ∀ e ∈ es, e.label = none) ∧
     (∃ es, xnliCreateExamples
        [[("premise", "p"), ("hypo", "h"), ("sentence", "s")]] "test" =
          some es ∧ ∀ e ∈ es, e.label = some "contradiction")) :=
  ⟨by decide, by decide,
    json_test_label_amended
      [[("premise", "p"), ("hypo", "h"), ("sentence", "s")]]
      (by decide) (by decide)⟩

/-- C6 counterexample: the classifier_utils Xnli adapter, on a
test-split JSON line with no label field, produces an example whose
label is the placeholder 'contradiction', not None, refuting the claim
that every JSON-lines adapter maps a missing test label to None. -/
theorem xnli_test_label_counterexample :
    xnliCreateExamples [[("premise", "p"), ("hypo", "h")]] "test" =
      some [{ guid := "test-0", text_a := "p", text_b := some "h",
              label := some "contradiction" }] ∧
    xnliCreateExamples [[("premise", "p"), ("hypo", "h")]] "test" ≠
      some [{ guid := "test-0", text_a := "p", text_b := some "h",
              label := none }] := by
  decide

/-- C7: `THUCNewsProcessor._create_examples` guards rows with
`len(line) < 3` but then reads `line[3]`, so a data row with exactly 3
fields passes the guard and the access raises IndexError (modelled as
`Except.error` carrying the row index), aborting the load instead of
skipping the row. -/
theorem thucnews_len3_row_claim :
    thucnewsCreateExamples [["hdr"], ["0", "a", "b"]] "train" =
      Except.error 1 := rfl

/-- C8: `TnewsProcessor.get_labels` is the constant 15-element ordered
sequence `str(100 + i)` for `i` in 0..16 with 5 and 11 omitted (being a
pure constant, identical on every call and across runs), and the Tnews
adapter maps a test-split JSON line with no label field to an example
whose label is None rather than an exception. -/
theorem tnews_labels_claim :
    tnewsGetLabels =
      ["100", "101", "102", "103", "104", "106", "107", "108", "109",
       "110", "112", "113", "114", "115", "116"] ∧
    tnewsGetLabels.length = 15 ∧
    tnewsGetLabels =
      ((List.range 17).filter
        (fun i => decide (i ≠ 5 ∧ i ≠ 11))).map
        (fun i => toString (100 + i)) ∧
    tnewsCreateExamples [[("sentence", "c")]] "test" =
      some [{ guid := "test-0", text_a := "c", text_b := none,
              label := none }] :=
  ⟨rfl, rfl, rfl, rfl⟩

theorem read_tsv_foldl_agree (rows : List (List String))
    (h : ∀ r ∈ rows, r.length ≠ 0) :
    ∀ acc : List (List String),
      rows.foldl (fun lines line => lines ++ [line]) acc =
        rows.foldl
          (fun lines line =>
            if line.length = 0 then lines else lines ++ [line]) acc := by
  induction rows with
  | nil => intro _; rfl
  | cons r rest ih =>
      intro acc
      simp only [List.foldl_cons]
      rw [if_neg (h r (by simp))]
      exact ih (fun x hx => h x (List.mem_cons_of_mem _ hx)) _

/-- C10 (amended): the two `_read_tsv` implementations return the same
list of rows for every input file that contains no zero-length row; on
files containing a zero-length row they disagree — see the
counterexample. -/
theorem read_tsv_agree_claim (rows : List (List String))
    (h : ∀ r ∈ rows, r.length ≠ 0) :
    read_tsv_cu rows = read_tsv_rc rows :=
  read_tsv_foldl_agree rows h []

/-- Witness for C10's amended claim on a two-row file with no blank
lines. -/
theorem read_tsv_agree_claim_witness :
    (∀ r ∈ [["a"], ["b", "c"]], r.length ≠ 0) ∧
    read_tsv_cu [["a"], ["b", "c"]] = read_tsv_rc [["a"], ["b", "c"]] :=
  ⟨by decide, read_tsv_agree_claim [["a"], ["b", "c"]] (by decide)⟩

/-- C10 counterexample: on a file whose `csv.reader` output contains a
zero-length row (a blank line), the classifier_utils reader keeps the
empty row while the run_classifier reader drops it, so the two
implementations do not return the same list of rows for every input
file. -/
theorem read_tsv_blank_row_counterexample :
    read_tsv_cu [[]] = [[]] ∧ read_tsv_rc [[]] = [] ∧
    read_tsv_cu [[]] ≠ read_tsv_rc [[]] := by
  decide

end CLUE
